import Mathlib

/-!
Verification of the ACME scoring and aggregation engine.

This file is a shallow embedding, in Lean 4, of the scoring core of the
repository: the eight metric functions of `acmecli/metrics/repo_scan.py`,
the timing wrapper of `acmecli/metrics/base.py`, and the orchestrator
`compute_all_scores` together with `clamp01`, `_device_size_scores` and
`DEFAULT_WEIGHTS` of `acmecli/scoring.py`.

Modelling conventions:
* Python floats are modelled by `ℚ` (all score arithmetic in the source is
  exact on the rationals); the device-size curve uses `math.pow` with
  fractional exponents and is modelled over `ℝ` with `Real.rpow`.
* Python ints are modelled by `ℤ`.
* `ctx.get(key, default)` on the loosely typed context dictionary is
  modelled by a structure of `Option`-valued fields read with `Option.getD`.
* The wall-clock measurements of `time.perf_counter` and the values drawn
  by `random.randint` inside the timing wrapper are nondeterministic inputs;
  they are passed explicitly through an `Oracle` record, so that the
  orchestrator becomes a pure function of the context and the oracle.
-/

namespace AcmeCLI

/-- Embedding of `clamp01` from `acmecli/scoring.py`:
`max(0.0, min(1.0, float(x)))`. -/
def clamp01 (x : ℚ) : ℚ :=
  max 0 (min 1 x)

/-- Python `str.lower()` on the characters that occur in license texts:
lower-case every character. -/
def lowerStr (s : String) : String :=
  ⟨s.data.map Char.toLower⟩

/-- Boolean test that the first list is a prefix of the second. -/
def isPrefixB : List Char → List Char → Bool
  | [], _ => true
  | _ :: _, [] => false
  | a :: as, b :: bs => a == b && isPrefixB as bs

/-- Boolean test that the first list occurs as a contiguous sublist of the
second. -/
def isInfixB : List Char → List Char → Bool
  | pat, [] => pat.isEmpty
  | pat, b :: bs => isPrefixB pat (b :: bs) || isInfixB pat bs

/-- Python's substring test `pat in s`. -/
def strHas (s pat : String) : Bool :=
  isInfixB pat.toList s.toList

/-- Embedding of the body of `size_score` from
`acmecli/metrics/repo_scan.py` (the function under the `@timed`
decorator).  Defaults in the source: `L = 50_000_000`, `U = 500_000_000`. -/
def size_score (total_bytes L U : ℤ) : ℚ :=
  if U ≤ L then 0
  else max 0 (min 1 (((U : ℚ) - (total_bytes : ℚ)) / ((U : ℚ) - (L : ℚ))))

/-- Default lower threshold of `size_score`. -/
def size_L : ℤ := 50000000

/-- Default upper threshold of `size_score`. -/
def size_U : ℤ := 500000000

/-- Embedding of the body of `license_score` from
`acmecli/metrics/repo_scan.py`. -/
def license_score (license_text : String) : ℚ :=
  if license_text = "" then 0.5
  else
    let tex := lowerStr license_text
    if strHas tex "lgpl-2.1" || strHas tex "lgpl v2.1" ||
        strHas tex "gnu lesser general public license v2.1" then 1.0
    else 0.0

/-- Embedding of the body of `rampup_score` from
`acmecli/metrics/repo_scan.py`: arithmetic mean of the five inputs. -/
def rampup_score (readme quickstart tutorials api_docs reproducibility : ℚ) : ℚ :=
  (readme + quickstart + tutorials + api_docs + reproducibility) / 5

/-- Embedding of the body of `bus_factor_score` from
`acmecli/metrics/repo_scan.py`.  Default in the source: `k = 5`. -/
def bus_factor_score (contributors k : ℤ) : ℚ :=
  let c := max 0 contributors
  if 0 < c + k then (c : ℚ) / ((c : ℚ) + (k : ℚ)) else 0

/-- Default saturation constant of `bus_factor_score`. -/
def bus_k : ℤ := 5

/-- Embedding of the body of `dataset_and_code_score` from
`acmecli/metrics/repo_scan.py`. -/
def dataset_and_code_score (dataset_present code_present : Bool) : ℚ :=
  ((if dataset_present then 1 else 0) + (if code_present then 1 else 0)) / 2

/-- Embedding of the body of `dataset_quality_score` from
`acmecli/metrics/repo_scan.py`. -/
def dataset_quality_score (source license_ splits ethics : ℚ) : ℚ :=
  (source + license_ + splits + ethics) / 4

/-- Embedding of the body of `code_quality_score` from
`acmecli/metrics/repo_scan.py`.  Defaults in the source: `emax = 50`,
`tmax = 20`. -/
def code_quality_score (flake8_errors : ℤ) (isort_sorted : Bool) (mypy_errors : ℤ)
    (emax tmax : ℤ) : ℚ :=
  let flake8_score := if 0 < emax then max 0 (1 - (flake8_errors : ℚ) / (emax : ℚ)) else 0
  let isort_score : ℚ := if isort_sorted then 1 else 0
  let mypy_score := if 0 < tmax then max 0 (1 - (mypy_errors : ℚ) / (tmax : ℚ)) else 0
  0.4 * flake8_score + 0.2 * isort_score + 0.4 * mypy_score

/-- Default `emax` ceiling of `code_quality_score`. -/
def cq_emax : ℤ := 50

/-- Default `tmax` ceiling of `code_quality_score`. -/
def cq_tmax : ℤ := 20

/-- Embedding of the body of `perf_claims_score` from
`acmecli/metrics/repo_scan.py`. -/
def perf_claims_score (benchmarks_present citations_present : Bool) : ℚ :=
  ((if benchmarks_present then 1 else 0) + (if citations_present then 1 else 0)) / 2

/-- The `random.randint(lo, hi)` range chosen by the `timed` wrapper of
`acmecli/metrics/base.py` for a metric function name, following the
if/elif chain of the source. -/
def simulated_latency_range (fn_name : String) : ℤ × ℤ :=
  if strHas fn_name "net_score" || strHas fn_name "net" then (100, 200)
  else if strHas fn_name "ramp" then (30, 60)
  else if strHas fn_name "bus" then (15, 35)
  else if strHas fn_name "performance" || strHas fn_name "claims" then (25, 45)
  else if strHas fn_name "license" then (8, 18)
  else if strHas fn_name "size" then (35, 65)
  else if strHas fn_name "dataset" then (10, 25)
  else if strHas fn_name "code" then (15, 30)
  else (5, 20)

/-- Score component of the `timed` wrapper of `acmecli/metrics/base.py`:
`max(0.0, min(1.0, score))`. -/
def timed_score (raw_score : ℚ) : ℚ :=
  max 0 (min 1 raw_score)

/-- Latency component of the `timed` wrapper of `acmecli/metrics/base.py`:
`max(0, max(actual_dt_ms, simulated_latency))`, where `actual_dt_ms` is the
measured elapsed time and `simulated_latency` is the drawn random latency. -/
def timed_ms (actual_dt_ms simulated_latency : ℤ) : ℤ :=
  max 0 (max actual_dt_ms simulated_latency)

/-- The value drawn by `random.randint(lo, hi)` inside the `timed` wrapper
for the metric named `fn_name`, as a function of an arbitrary random seed
`r`: `lo + r % (hi - lo + 1)`.  For `lo ≤ hi` this ranges exactly over
`[lo, hi]`, and every value of the range is reached by some seed. -/
def timed_sim (fn_name : String) (r : ℕ) : ℤ :=
  (simulated_latency_range fn_name).1 +
    (r : ℤ) % ((simulated_latency_range fn_name).2 - (simulated_latency_range fn_name).1 + 1)

/-- The full `(score, ms)` pair returned by the wrapped metric function in
`acmecli/metrics/base.py`, given the measured elapsed time and the random
seed of the simulated latency draw. -/
def timed_pair (fn_name : String) (raw_score : ℚ) (actual_dt_ms : ℤ) (r : ℕ) : ℚ × ℤ :=
  (timed_score raw_score, timed_ms actual_dt_ms (timed_sim fn_name r))

/-- Embedding of `DEFAULT_WEIGHTS` from `acmecli/scoring.py`, in the
insertion order of the source dictionary. -/
def DEFAULT_WEIGHTS : List (String × ℚ) :=
  [("size", 0.05), ("license", 0.20), ("ramp_up_time", 0.15), ("bus_factor", 0.10),
   ("dataset_and_code", 0.20), ("dataset_quality", 0.05), ("code_quality", 0.15),
   ("performance_claims", 0.10)]

/-- Result of `_device_size_scores` in `acmecli/scoring.py`: one
size-suitability score per device class, in the order of the source's
parameter table. -/
structure DeviceScores where
  raspberry_pi : ℝ
  jetson_nano : ℝ
  desktop_pc : ℝ
  aws_server : ℝ

/-- Real-valued clamp to [0,1], used by the device curve (the `clamp01`
call inside `_device_size_scores`). -/
noncomputable def clamp01R (x : ℝ) : ℝ :=
  max 0 (min 1 x)

/-- One device entry of `_device_size_scores`:
`clamp01(1.0 / (1.0 + math.pow(max(0.0, ratio), a)))` with
`ratio = S / C if C > 0 else 0.0`. -/
noncomputable def deviceScore (S C a : ℝ) : ℝ :=
  let r := if 0 < C then S / C else 0
  clamp01R (1 / (1 + (max 0 r) ^ a))

/-- Embedding of `_device_size_scores` from `acmecli/scoring.py`, with the
capacity/sharpness table of the source. -/
noncomputable def device_size_scores (total_bytes : ℤ) : DeviceScores :=
  let S : ℝ := max 0 (total_bytes : ℝ)
  { raspberry_pi := deviceScore S 150000000 1.5
    jetson_nano := deviceScore S 300000000 1.5
    desktop_pc := deviceScore S 2000000000 2.0
    aws_server := deviceScore S 4000000000 2.0 }

/-- The `docs` sub-dictionary of a context; each key may be absent and
defaults to `0` at the orchestrator's `d.get(key, 0)` calls. -/
structure Docs where
  readme : Option ℚ
  quickstart : Option ℚ
  tutorials : Option ℚ
  api_docs : Option ℚ
  reproducibility : Option ℚ

/-- The `dataset_doc` sub-dictionary of a context. -/
structure DatasetDoc where
  source : Option ℚ
  license : Option ℚ
  splits : Option ℚ
  ethics : Option ℚ

/-- The `perf` sub-dictionary of a context. -/
structure PerfInfo where
  benchmarks : Option Bool
  citations : Option Bool

/-- The optional `latencies` override mapping of a context, one key per
reported per-dimension latency. -/
structure CtxLatencies where
  size_score_latency : Option ℤ
  license_latency : Option ℤ
  ramp_up_time_latency : Option ℤ
  bus_factor_latency : Option ℤ
  dataset_and_code_score_latency : Option ℤ
  dataset_quality_latency : Option ℤ
  code_quality_latency : Option ℤ
  performance_claims_latency : Option ℤ

/-- A well-typed context dictionary as read by `compute_all_scores`:
every key the orchestrator accesses with `ctx.get` is an optional field. -/
structure Context where
  total_bytes : Option ℤ
  license_text : Option String
  docs : Option Docs
  contributors : Option ℤ
  dataset_present : Option Bool
  code_present : Option Bool
  dataset_doc : Option DatasetDoc
  flake8_errors : Option ℤ
  isort_sorted : Option Bool
  mypy_errors : Option ℤ
  perf : Option PerfInfo
  latencies : Option CtxLatencies

/-- Nondeterministic inputs of one `compute_all_scores` call: for each of
the eight `@timed` metric calls, the measured elapsed milliseconds
(`actual_dt_ms`) and the drawn simulated latency; plus the orchestrator's
own wall-clock elapsed milliseconds. -/
structure Oracle where
  size_actual : ℤ
  size_r : ℕ
  license_actual : ℤ
  license_r : ℕ
  ramp_actual : ℤ
  ramp_r : ℕ
  bus_actual : ℤ
  bus_r : ℕ
  dac_actual : ℤ
  dac_r : ℕ
  dq_actual : ℤ
  dq_r : ℕ
  cq_actual : ℤ
  cq_r : ℕ
  pc_actual : ℤ
  pc_r : ℕ
  elapsed_ms : ℤ

/-- The `scores` dictionary built inside `compute_all_scores`. -/
structure Scores where
  size : ℚ
  license : ℚ
  ramp_up_time : ℚ
  bus_factor : ℚ
  dataset_and_code : ℚ
  dataset_quality : ℚ
  code_quality : ℚ
  performance_claims : ℚ

/-- The `latencies` dictionary built inside `compute_all_scores` (merged,
floored values; all eight keys always present). -/
structure LatencyMap where
  size_score_latency : ℤ
  license_latency : ℤ
  ramp_up_time_latency : ℤ
  bus_factor_latency : ℤ
  dataset_and_code_score_latency : ℤ
  dataset_quality_latency : ℤ
  code_quality_latency : ℤ
  performance_claims_latency : ℤ

/-- The result record returned by `compute_all_scores`, with the exact
field set of the source dictionary. -/
structure ScoreResult where
  net_score : ℚ
  net_score_latency : ℤ
  ramp_up_time : ℚ
  ramp_up_time_latency : ℤ
  bus_factor : ℚ
  bus_factor_latency : ℤ
  performance_claims : ℚ
  performance_claims_latency : ℤ
  license : ℚ
  license_latency : ℤ
  size_score_map : DeviceScores
  size_score_latency : ℤ
  dataset_and_code_score : ℚ
  dataset_and_code_score_latency : ℤ
  dataset_quality : ℚ
  dataset_quality_latency : ℤ
  code_quality : ℚ
  code_quality_latency : ℤ

/-- An empty `docs` mapping (the `ctx.get("docs", {})` default). -/
def emptyDocs : Docs := ⟨none, none, none, none, none⟩

/-- An empty `dataset_doc` mapping. -/
def emptyDatasetDoc : DatasetDoc := ⟨none, none, none, none⟩

/-- An empty `perf` mapping. -/
def emptyPerfInfo : PerfInfo := ⟨none, none⟩

/-- An empty `latencies` mapping (the `ctx.get("latencies", {}) or {}`
default). -/
def emptyCtxLatencies : CtxLatencies := ⟨none, none, none, none, none, none, none, none⟩

/-- A fully absent context: every `ctx.get` falls back to its default. -/
def emptyContext : Context :=
  ⟨none, none, none, none, none, none, none, none, none, none, none, none⟩

/-- Score lookup `scores[k]` for the keys of `DEFAULT_WEIGHTS`. -/
def scoreOf (s : Scores) (k : String) : ℚ :=
  if k = "size" then s.size
  else if k = "license" then s.license
  else if k = "ramp_up_time" then s.ramp_up_time
  else if k = "bus_factor" then s.bus_factor
  else if k = "dataset_and_code" then s.dataset_and_code
  else if k = "dataset_quality" then s.dataset_quality
  else if k = "code_quality" then s.code_quality
  else if k = "performance_claims" then s.performance_claims
  else 0

/-- The net-score weighted sum of `compute_all_scores`:
`sum(scores[k] * DEFAULT_WEIGHTS[k] for k in DEFAULT_WEIGHTS)`. -/
def netScore (s : Scores) : ℚ :=
  (DEFAULT_WEIGHTS.map fun kw => scoreOf s kw.1 * kw.2).sum

/-- The `scores` dictionary of `compute_all_scores`: each metric invoked
through the `timed` wrapper on defensively read context fields, then
clamped again with `clamp01` at the aggregation boundary. -/
def ctxScores (ctx : Context) : Scores :=
  let d := ctx.docs.getD emptyDocs
  let dd := ctx.dataset_doc.getD emptyDatasetDoc
  let p := ctx.perf.getD emptyPerfInfo
  { size := clamp01 (timed_score (size_score (ctx.total_bytes.getD 0) size_L size_U))
    license := clamp01 (timed_score (license_score (ctx.license_text.getD "")))
    ramp_up_time := clamp01 (timed_score (rampup_score (d.readme.getD 0) (d.quickstart.getD 0)
      (d.tutorials.getD 0) (d.api_docs.getD 0) (d.reproducibility.getD 0)))
    bus_factor := clamp01 (timed_score (bus_factor_score (ctx.contributors.getD 0) bus_k))
    dataset_and_code := clamp01 (timed_score (dataset_and_code_score
      (ctx.dataset_present.getD false) (ctx.code_present.getD false)))
    dataset_quality := clamp01 (timed_score (dataset_quality_score (dd.source.getD 0)
      (dd.license.getD 0) (dd.splits.getD 0) (dd.ethics.getD 0)))
    code_quality := clamp01 (timed_score (code_quality_score (ctx.flake8_errors.getD 0)
      (ctx.isort_sorted.getD true) (ctx.mypy_errors.getD 0) cq_emax cq_tmax))
    performance_claims := clamp01 (timed_score (perf_claims_score
      (p.benchmarks.getD false) (p.citations.getD false))) }

/-- The `latencies_default` dictionary of `compute_all_scores`: the
millisecond component of each `timed` metric call. -/
def defaultLatencies (o : Oracle) : LatencyMap :=
  { size_score_latency := timed_ms o.size_actual (timed_sim "size_score" o.size_r)
    license_latency := timed_ms o.license_actual (timed_sim "license_score" o.license_r)
    ramp_up_time_latency := timed_ms o.ramp_actual (timed_sim "rampup_score" o.ramp_r)
    bus_factor_latency := timed_ms o.bus_actual (timed_sim "bus_factor_score" o.bus_r)
    dataset_and_code_score_latency :=
      timed_ms o.dac_actual (timed_sim "dataset_and_code_score" o.dac_r)
    dataset_quality_latency := timed_ms o.dq_actual (timed_sim "dataset_quality_score" o.dq_r)
    code_quality_latency := timed_ms o.cq_actual (timed_sim "code_quality_score" o.cq_r)
    performance_claims_latency := timed_ms o.pc_actual (timed_sim "perf_claims_score" o.pc_r) }

/-- The merged `latencies` dictionary of `compute_all_scores`: context
override preferred over the local timing, every value floored to 1 ms
(`max(1, int(latencies_ctx.get(k, latencies_default[k])))`). -/
def mergedLatencies (ctx : Context) (o : Oracle) : LatencyMap :=
  let lc := ctx.latencies.getD emptyCtxLatencies
  let ld := defaultLatencies o
  { size_score_latency := max 1 (lc.size_score_latency.getD ld.size_score_latency)
    license_latency := max 1 (lc.license_latency.getD ld.license_latency)
    ramp_up_time_latency := max 1 (lc.ramp_up_time_latency.getD ld.ramp_up_time_latency)
    bus_factor_latency := max 1 (lc.bus_factor_latency.getD ld.bus_factor_latency)
    dataset_and_code_score_latency :=
      max 1 (lc.dataset_and_code_score_latency.getD ld.dataset_and_code_score_latency)
    dataset_quality_latency := max 1 (lc.dataset_quality_latency.getD ld.dataset_quality_latency)
    code_quality_latency := max 1 (lc.code_quality_latency.getD ld.code_quality_latency)
    performance_claims_latency :=
      max 1 (lc.performance_claims_latency.getD ld.performance_claims_latency) }

/-- The `max(latencies.values())` step of `compute_all_scores` (the
dictionary always carries its eight keys, so the `else 1` branch of the
source is unreachable). -/
def maxLatency (m : LatencyMap) : ℤ :=
  max m.size_score_latency (max m.license_latency (max m.ramp_up_time_latency
    (max m.bus_factor_latency (max m.dataset_and_code_score_latency
      (max m.dataset_quality_latency (max m.code_quality_latency
        m.performance_claims_latency))))))

/-- Embedding of `compute_all_scores` from `acmecli/scoring.py` as a pure
function of the context and the timing oracle. -/
noncomputable def computeAllScores (ctx : Context) (o : Oracle) : ScoreResult :=
  let scores := ctxScores ctx
  let latencies := mergedLatencies ctx o
  let size_obj := device_size_scores (ctx.total_bytes.getD 0)
  let net := netScore scores
  let overhead := max 1 o.elapsed_ms
  let net_latency := maxLatency latencies + overhead
  { net_score := clamp01 net
    net_score_latency := net_latency
    ramp_up_time := scores.ramp_up_time
    ramp_up_time_latency := latencies.ramp_up_time_latency
    bus_factor := scores.bus_factor
    bus_factor_latency := latencies.bus_factor_latency
    performance_claims := scores.performance_claims
    performance_claims_latency := latencies.performance_claims_latency
    license := scores.license
    license_latency := latencies.license_latency
    size_score_map := size_obj
    size_score_latency := latencies.size_score_latency
    dataset_and_code_score := scores.dataset_and_code
    dataset_and_code_score_latency := latencies.dataset_and_code_score_latency
    dataset_quality := scores.dataset_quality
    dataset_quality_latency := latencies.dataset_quality_latency
    code_quality := scores.code_quality
    code_quality_latency := latencies.code_quality_latency }

/-- The context with every absent optional key replaced by the default the
orchestrator actually uses at its `ctx.get`/`d.get` call sites (note the
source line `ctx.get("isort_sorted", True)`: the `isort_sorted` default is
`true`). -/
def fillDefaults (ctx : Context) : Context :=
  let d := ctx.docs.getD emptyDocs
  let dd := ctx.dataset_doc.getD emptyDatasetDoc
  let p := ctx.perf.getD emptyPerfInfo
  { total_bytes := some (ctx.total_bytes.getD 0)
    license_text := some (ctx.license_text.getD "")
    docs := some ⟨some (d.readme.getD 0), some (d.quickstart.getD 0),
      some (d.tutorials.getD 0), some (d.api_docs.getD 0), some (d.reproducibility.getD 0)⟩
    contributors := some (ctx.contributors.getD 0)
    dataset_present := some (ctx.dataset_present.getD false)
    code_present := some (ctx.code_present.getD false)
    dataset_doc := some ⟨some (dd.source.getD 0), some (dd.license.getD 0),
      some (dd.splits.getD 0), some (dd.ethics.getD 0)⟩
    flake8_errors := some (ctx.flake8_errors.getD 0)
    isort_sorted := some (ctx.isort_sorted.getD true)
    mypy_errors := some (ctx.mypy_errors.getD 0)
    perf := some ⟨some (p.benchmarks.getD false), some (p.citations.getD false)⟩
    latencies := some (ctx.latencies.getD emptyCtxLatencies) }

/-- Modelled from the words of the claim under scrutiny: the same default
substitution, but with the `isort_sorted` default taken to be `false` as
the claim asserts.  This definition follows the claim, not the source; it
exists only to be compared against the source behaviour. -/
def fillDefaultsClaimed (ctx : Context) : Context :=
  { fillDefaults ctx with isort_sorted := some (ctx.isort_sorted.getD false) }

/-- A concrete all-zero timing oracle. -/
def zeroOracle : Oracle :=
  ⟨0, 0, 0, 0, 0, 0, 0, 0, 0, 0, 0, 0, 0, 0, 0, 0, 0⟩

/-- Membership in the closed unit interval, for rational scores. -/
def In01 (x : ℚ) : Prop := 0 ≤ x ∧ x ≤ 1

/-- Membership in the closed unit interval, for real device scores. -/
def In01R (x : ℝ) : Prop := 0 ≤ x ∧ x ≤ 1

/-- Every clamped rational score lies in the unit interval. -/
theorem clamp01_in01 (x : ℚ) : In01 (clamp01 x) :=
  ⟨le_max_left 0 _, max_le (by norm_num) (min_le_left 1 x)⟩

/-- Every clamped real score lies in the unit interval. -/
theorem clamp01R_in01 (x : ℝ) : In01R (clamp01R x) :=
  ⟨le_max_left 0 _, max_le (by norm_num) (min_le_left 1 x)⟩

/-- Clamping is the identity on the unit interval. -/
theorem clamp01_eq_of_in01 (x : ℚ) (h : In01 x) : clamp01 x = x := by
  unfold clamp01
  rw [min_eq_right h.2, max_eq_right h.1]

/-- Both ends of every simulated-latency range are at least 5 ms, and each
range is nonempty. -/
theorem simulated_latency_range_ge_5 (fn_name : String) :
    5 ≤ (simulated_latency_range fn_name).1 ∧
      (simulated_latency_range fn_name).1 ≤ (simulated_latency_range fn_name).2 := by
  unfold simulated_latency_range
  split_ifs <;> norm_num

/-- The simulated latency drawn for a metric is at least the lower end of
its range, hence at least 5 ms. -/
theorem timed_sim_ge_5 (fn_name : String) (r : ℕ) : 5 ≤ timed_sim fn_name r := by
  obtain ⟨h5, hle⟩ := simulated_latency_range_ge_5 fn_name
  unfold timed_sim
  have hm : 0 < (simulated_latency_range fn_name).2 - (simulated_latency_range fn_name).1 + 1 := by
    omega
  have := Int.emod_nonneg (r : ℤ) (ne_of_gt hm)
  omega

/-- Claim C2: the eight weights of `DEFAULT_WEIGHTS` (size 0.05, license
0.20, ramp_up_time 0.15, bus_factor 0.10, dataset_and_code 0.20,
dataset_quality 0.05, code_quality 0.15, performance_claims 0.10) sum to
exactly 1, in particular to 1 within a tolerance of `1e-9`. -/
theorem default_weights_sum_to_one :
    (DEFAULT_WEIGHTS.map Prod.snd).sum = 1 ∧
      |(DEFAULT_WEIGHTS.map Prod.snd).sum - 1| ≤ 1 / 1000000000 := by
  constructor <;> norm_num [DEFAULT_WEIGHTS]

/-- Claim C3: piecewise behaviour of `size_score`: zero in the degenerate
configuration `U ≤ L` (for any input, without raising), otherwise the
clamped linear ramp, equal to 1 at or below `L` and to 0 at or above `U`;
in particular `size_score X 100 100 = 0` for every `X`. -/
theorem size_score_piecewise :
    (∀ t L U : ℤ, U ≤ L → size_score t L U = 0) ∧
    (∀ t L U : ℤ, L < U →
      size_score t L U = max 0 (min 1 (((U : ℚ) - (t : ℚ)) / ((U : ℚ) - (L : ℚ))))) ∧
    (∀ t L U : ℤ, L < U → t ≤ L → size_score t L U = 1) ∧
    (∀ t L U : ℤ, L < U → U ≤ t → size_score t L U = 0) ∧
    (∀ X : ℤ, size_score X 100 100 = 0) := by
  have h0 : ∀ t L U : ℤ, U ≤ L → size_score t L U = 0 := by
    intro t L U h
    unfold size_score
    rw [if_pos h]
  have h1 : ∀ t L U : ℤ, L < U →
      size_score t L U = max 0 (min 1 (((U : ℚ) - (t : ℚ)) / ((U : ℚ) - (L : ℚ)))) := by
    intro t L U h
    unfold size_score
    rw [if_neg (not_le.2 h)]
  refine ⟨h0, h1, ?_, ?_, fun X => h0 X 100 100 le_rfl⟩
  · intro t L U hLU htL
    rw [h1 t L U hLU]
    have hden : (0 : ℚ) < (U : ℚ) - (L : ℚ) := by
      have : (L : ℚ) < (U : ℚ) := by exact_mod_cast hLU
      linarith
    have hnum : (U : ℚ) - (L : ℚ) ≤ (U : ℚ) - (t : ℚ) := by
      have : (t : ℚ) ≤ (L : ℚ) := by exact_mod_cast htL
      linarith
    have hone : (1 : ℚ) ≤ ((U : ℚ) - (t : ℚ)) / ((U : ℚ) - (L : ℚ)) :=
      (one_le_div hden).2 hnum
    rw [min_eq_left hone]
    norm_num
  · intro t L U hLU hUt
    rw [h1 t L U hLU]
    have hden : (0 : ℚ) < (U : ℚ) - (L : ℚ) := by
      have : (L : ℚ) < (U : ℚ) := by exact_mod_cast hLU
      linarith
    have hnum : (U : ℚ) - (t : ℚ) ≤ 0 := by
      have : (U : ℚ) ≤ (t : ℚ) := by exact_mod_cast hUt
      linarith
    have hnp : ((U : ℚ) - (t : ℚ)) / ((U : ℚ) - (L : ℚ)) ≤ 0 :=
      div_nonpos_of_nonpos_of_nonneg hnum hden.le
    rw [min_eq_right (hnp.trans (by norm_num)), max_eq_left hnp]

/-- Claim C3 witness: concrete instances of `size_score_piecewise`. -/
theorem size_score_piecewise_check :
    size_score 123 100 100 = 0 ∧
    size_score 70 50 100 = max 0 (min 1 ((100 - 70) / (100 - 50 : ℚ))) ∧
    size_score 40 50 100 = 1 ∧
    size_score 150 50 100 = 0 ∧
    size_score (-7) 100 100 = 0 := by
  refine ⟨size_score_piecewise.1 123 100 100 (by norm_num),
    ?_,
    size_score_piecewise.2.2.1 40 50 100 (by norm_num) (by norm_num),
    size_score_piecewise.2.2.2.1 150 50 100 (by norm_num) (by norm_num),
    size_score_piecewise.2.2.2.2 (-7)⟩
  have := size_score_piecewise.2.1 70 50 100 (by norm_num)
  rw [this]
  norm_num

/-- Claim C5: behaviour of `bus_factor_score`: negative contributor counts are
clamped to zero, the saturating formula `c / (c + k)` applies when
`c + k > 0` (and 0 otherwise), and the score is strictly increasing in the
non-negative contributor count for fixed `k > 0`; in particular
`bus_factor_score 1 < bus_factor_score 5 < bus_factor_score 20` at the
default `k = 5`. -/
theorem bus_factor_monotone :
    (∀ c k : ℤ, c ≤ 0 → bus_factor_score c k = bus_factor_score 0 k) ∧
    (∀ c k : ℤ, 0 ≤ c → 0 < c + k →
      bus_factor_score c k = (c : ℚ) / ((c : ℚ) + (k : ℚ))) ∧
    (∀ c k : ℤ, 0 ≤ c → c + k ≤ 0 → bus_factor_score c k = 0) ∧
    (∀ c₁ c₂ k : ℤ, 0 ≤ c₁ → c₁ < c₂ → 0 < k →
      bus_factor_score c₁ k < bus_factor_score c₂ k) ∧
    bus_factor_score 1 bus_k < bus_factor_score 5 bus_k ∧
    bus_factor_score 5 bus_k < bus_factor_score 20 bus_k := by
  have hform : ∀ c k : ℤ, 0 ≤ c → 0 < c + k →
      bus_factor_score c k = (c : ℚ) / ((c : ℚ) + (k : ℚ)) := by
    intro c k hc hck
    unfold bus_factor_score
    rw [max_eq_right hc, if_pos hck]
  have hmono : ∀ c₁ c₂ k : ℤ, 0 ≤ c₁ → c₁ < c₂ → 0 < k →
      bus_factor_score c₁ k < bus_factor_score c₂ k := by
    intro c₁ c₂ k h0 hlt hk
    rw [hform c₁ k h0 (by omega), hform c₂ k (by omega) (by omega)]
    have hd1 : (0 : ℚ) < (c₁ : ℚ) + (k : ℚ) := by exact_mod_cast (by omega : (0 : ℤ) < c₁ + k)
    have hd2 : (0 : ℚ) < (c₂ : ℚ) + (k : ℚ) := by exact_mod_cast (by omega : (0 : ℤ) < c₂ + k)
    rw [div_lt_div_iff₀ hd1 hd2]
    have hltq : (c₁ : ℚ) < (c₂ : ℚ) := by exact_mod_cast hlt
    have hkq : (0 : ℚ) < (k : ℚ) := by exact_mod_cast hk
    nlinarith
  refine ⟨?_, hform, ?_, hmono,
    hmono 1 5 bus_k (by norm_num) (by norm_num) (by norm_num [bus_k]),
    hmono 5 20 bus_k (by norm_num) (by norm_num) (by norm_num [bus_k])⟩
  · intro c k hc
    unfold bus_factor_score
    rw [max_eq_left hc]
    simp
  · intro c k hc hck
    unfold bus_factor_score
    rw [max_eq_right hc, if_neg (by omega)]

/-- Claim C5 witness: concrete instances of `bus_factor_monotone`. -/
theorem bus_factor_monotone_check :
    bus_factor_score (-5) 5 = bus_factor_score 0 5 ∧
    bus_factor_score 3 5 = (3 : ℚ) / (3 + 5) ∧
    bus_factor_score 2 (-2) = 0 ∧
    bus_factor_score 2 5 < bus_factor_score 3 5 :=
  ⟨bus_factor_monotone.1 (-5) 5 (by norm_num),
    bus_factor_monotone.2.1 3 5 (by norm_num) (by norm_num),
    bus_factor_monotone.2.2.1 2 (-2) (by norm_num) (by norm_num),
    bus_factor_monotone.2.2.2.1 2 3 5 (by norm_num) (by norm_num) (by norm_num)⟩

/-- Claim C7 counterexample: at the near-zero-computation input (measured
elapsed time 0 ms, the case the claim points at), the wrapper still
reports a nonzero latency: with random seed 0 the size metric reports
35 ms, the lower end of its simulated-latency range, not 0. -/
theorem timed_latency_nonzero_at_zero_time :
    (timed_pair "size_score" 0.5 0 0).2 = 35 ∧ (timed_pair "size_score" 0.5 0 0).2 ≠ 0 := by
  constructor <;> decide

/-- Claim C7 (amended): the millisecond component returned by the `timed`
wrapper is at least 5 ms, the smallest lower end of the simulated-latency
ranges drawn inside the wrapper. -/
theorem timed_latency_at_least_five (fn_name : String) (raw_score : ℚ) (actual_dt_ms : ℤ)
    (r : ℕ) : 5 ≤ (timed_pair fn_name raw_score actual_dt_ms r).2 := by
  have h5 := timed_sim_ge_5 fn_name r
  have h1 : timed_sim fn_name r ≤ max actual_dt_ms (timed_sim fn_name r) :=
    le_max_right _ _
  have h2 : max actual_dt_ms (timed_sim fn_name r) ≤
      max 0 (max actual_dt_ms (timed_sim fn_name r)) := le_max_right _ _
  simp only [timed_pair, timed_ms]
  omega

/-- Claim C4: the license policy of `license_score`: 0.5 for empty text, 1 when the
lower-cased text contains one of the three LGPL v2.1 markers, 0 for any
other non-empty text; in particular `license_score "LGPL-2.1" = 1`
(case-insensitive) and `license_score "MIT" = 0`. -/
theorem license_score_policy :
    license_score "" = 0.5 ∧
    (∀ s : String, s ≠ "" →
      (strHas (lowerStr s) "lgpl-2.1" || strHas (lowerStr s) "lgpl v2.1" ||
        strHas (lowerStr s) "gnu lesser general public license v2.1") = true →
      license_score s = 1) ∧
    (∀ s : String, s ≠ "" →
      (strHas (lowerStr s) "lgpl-2.1" || strHas (lowerStr s) "lgpl v2.1" ||
        strHas (lowerStr s) "gnu lesser general public license v2.1") = false →
      license_score s = 0) ∧
    license_score "LGPL-2.1" = 1 ∧
    license_score "MIT" = 0 := by
  have hpos : ∀ s : String, s ≠ "" →
      (strHas (lowerStr s) "lgpl-2.1" || strHas (lowerStr s) "lgpl v2.1" ||
        strHas (lowerStr s) "gnu lesser general public license v2.1") = true →
      license_score s = 1 := by
    intro s hs hb
    unfold license_score
    rw [if_neg hs]
    simp only [hb]
    norm_num
  have hneg : ∀ s : String, s ≠ "" →
      (strHas (lowerStr s) "lgpl-2.1" || strHas (lowerStr s) "lgpl v2.1" ||
        strHas (lowerStr s) "gnu lesser general public license v2.1") = false →
      license_score s = 0 := by
    intro s hs hb
    unfold license_score
    rw [if_neg hs]
    simp only [hb]
    norm_num
  refine ⟨?_, hpos, hneg, hpos "LGPL-2.1" (by decide) (by decide),
    hneg "MIT" (by decide) (by decide)⟩
  unfold license_score
  rw [if_pos rfl]

/-- Claim C4 witness: concrete instances of `license_score_policy` on fresh
inputs. -/
theorem license_score_policy_check :
    license_score "Apache License 2.0" = 0 ∧
    license_score "Gnu Lesser General Public License v2.1" = 1 := by
  exact ⟨license_score_policy.2.2.1 "Apache License 2.0" (by decide) (by decide),
    license_score_policy.2.1 "Gnu Lesser General Public License v2.1" (by decide) (by decide)⟩

/-- Claim C1: all nine aggregated score values of `compute_all_scores` (the eight
clamped dimension scores, of which `size` is the internal one of the
weighted sum, plus the net score), as well as the four device-class size
scores of the reported mapping, lie in [0,1]. -/
theorem all_scores_in_unit_interval (ctx : Context) (o : Oracle) :
    In01 (computeAllScores ctx o).net_score ∧
    In01 (ctxScores ctx).size ∧
    In01 (computeAllScores ctx o).license ∧
    In01 (computeAllScores ctx o).ramp_up_time ∧
    In01 (computeAllScores ctx o).bus_factor ∧
    In01 (computeAllScores ctx o).dataset_and_code_score ∧
    In01 (computeAllScores ctx o).dataset_quality ∧
    In01 (computeAllScores ctx o).code_quality ∧
    In01 (computeAllScores ctx o).performance_claims ∧
    In01R (computeAllScores ctx o).size_score_map.raspberry_pi ∧
    In01R (computeAllScores ctx o).size_score_map.jetson_nano ∧
    In01R (computeAllScores ctx o).size_score_map.desktop_pc ∧
    In01R (computeAllScores ctx o).size_score_map.aws_server :=
  ⟨clamp01_in01 _, clamp01_in01 _, clamp01_in01 _, clamp01_in01 _, clamp01_in01 _,
    clamp01_in01 _, clamp01_in01 _, clamp01_in01 _, clamp01_in01 _,
    clamp01R_in01 _, clamp01R_in01 _, clamp01R_in01 _, clamp01R_in01 _⟩

/-- Claim C8: the score outputs of `compute_all_scores` do not depend on the timing
oracle: two runs on an identical context agree on the net score, on every
dimension score and on the device size mapping (only latencies may
differ). -/
theorem compute_all_scores_deterministic (ctx : Context) (o₁ o₂ : Oracle) :
    (computeAllScores ctx o₁).net_score = (computeAllScores ctx o₂).net_score ∧
    (computeAllScores ctx o₁).ramp_up_time = (computeAllScores ctx o₂).ramp_up_time ∧
    (computeAllScores ctx o₁).bus_factor = (computeAllScores ctx o₂).bus_factor ∧
    (computeAllScores ctx o₁).performance_claims =
      (computeAllScores ctx o₂).performance_claims ∧
    (computeAllScores ctx o₁).license = (computeAllScores ctx o₂).license ∧
    (computeAllScores ctx o₁).size_score_map = (computeAllScores ctx o₂).size_score_map ∧
    (computeAllScores ctx o₁).dataset_and_code_score =
      (computeAllScores ctx o₂).dataset_and_code_score ∧
    (computeAllScores ctx o₁).dataset_quality = (computeAllScores ctx o₂).dataset_quality ∧
    (computeAllScores ctx o₁).code_quality = (computeAllScores ctx o₂).code_quality :=
  ⟨rfl, rfl, rfl, rfl, rfl, rfl, rfl, rfl, rfl⟩

/-- Claim C9 (amended): the orchestrator reads every context field defensively: its output on
any context equals its output on the context with every absent key
replaced by the default actually used at the corresponding `get` call
(`0`, `""`, `false`, `true` for `isort_sorted`, or the empty mapping). -/
theorem compute_all_scores_defaults (ctx : Context) (o : Oracle) :
    computeAllScores ctx o = computeAllScores (fillDefaults ctx) o := rfl

/-- Claim C9 counterexample: on the empty context the orchestrator invokes `code_quality_score`
with `isort_sorted = true` (the source default), not `false` as the claim
documents: the resulting code-quality score is 1, while the claimed
default substitution would give 0.8. -/
theorem isort_default_not_false :
    (computeAllScores emptyContext zeroOracle).code_quality = 1 ∧
    (computeAllScores (fillDefaultsClaimed emptyContext) zeroOracle).code_quality = 0.8 ∧
    (computeAllScores emptyContext zeroOracle).code_quality ≠
      (computeAllScores (fillDefaultsClaimed emptyContext) zeroOracle).code_quality := by
  have h1 : (computeAllScores emptyContext zeroOracle).code_quality = 1 := by
    show clamp01 (timed_score (code_quality_score 0 true 0 cq_emax cq_tmax)) = 1
    norm_num [clamp01, timed_score, code_quality_score, cq_emax, cq_tmax, max_def, min_def]
  have h2 : (computeAllScores (fillDefaultsClaimed emptyContext) zeroOracle).code_quality
      = 0.8 := by
    show clamp01 (timed_score (code_quality_score 0 false 0 cq_emax cq_tmax)) = 0.8
    norm_num [clamp01, timed_score, code_quality_score, cq_emax, cq_tmax, max_def, min_def]
  refine ⟨h1, h2, ?_⟩
  rw [h1, h2]
  norm_num

/-- The weighted sum over `DEFAULT_WEIGHTS`, written out. -/
theorem netScore_eq8 (s : Scores) :
    netScore s = s.size * 0.05 + s.license * 0.20 + s.ramp_up_time * 0.15 +
      s.bus_factor * 0.10 + s.dataset_and_code * 0.20 + s.dataset_quality * 0.05 +
      s.code_quality * 0.15 + s.performance_claims * 0.10 := by
  simp [netScore, DEFAULT_WEIGHTS, scoreOf]
  ring

/-- The weighted sum of scores that all lie in [0,1] itself lies in
[0,1], since the weights are non-negative and sum to 1. -/
theorem netScore_in01_of (s : Scores) (h1 : In01 s.size) (h2 : In01 s.license)
    (h3 : In01 s.ramp_up_time) (h4 : In01 s.bus_factor) (h5 : In01 s.dataset_and_code)
    (h6 : In01 s.dataset_quality) (h7 : In01 s.code_quality)
    (h8 : In01 s.performance_claims) : In01 (netScore s) := by
  rw [netScore_eq8]
  constructor <;>
    linarith [h1.1, h1.2, h2.1, h2.2, h3.1, h3.2, h4.1, h4.2, h5.1, h5.2, h6.1, h6.2,
      h7.1, h7.2, h8.1, h8.2]

/-- Claim C10: the final `clamp01` on the net score is a no-op: the weighted sum of
the already-clamped dimension scores is itself in [0,1], so the reported
`net_score` equals the weighted sum exactly. -/
theorem net_score_clamp_noop (ctx : Context) (o : Oracle) :
    clamp01 (netScore (ctxScores ctx)) = netScore (ctxScores ctx) ∧
    (computeAllScores ctx o).net_score = netScore (ctxScores ctx) := by
  have h : In01 (netScore (ctxScores ctx)) :=
    netScore_in01_of _ (clamp01_in01 _) (clamp01_in01 _) (clamp01_in01 _) (clamp01_in01 _)
      (clamp01_in01 _) (clamp01_in01 _) (clamp01_in01 _) (clamp01_in01 _)
  exact ⟨clamp01_eq_of_in01 _ h, clamp01_eq_of_in01 _ h⟩

/-- Flooring after an absent override falls back to the default. -/
theorem max1_getD_none {a : Option ℤ} {d : ℤ} (h : a = none) :
    max 1 (a.getD d) = max 1 d := by
  rw [h, Option.getD_none]

/-- Flooring after a present override uses the override. -/
theorem max1_getD_some {a : Option ℤ} {d v : ℤ} (h : a = some v) :
    max 1 (a.getD d) = max 1 v := by
  rw [h, Option.getD_some]

/-- Claim C6 (amended): latency reporting of `compute_all_scores`: each reported per-dimension
latency is the context override when present, otherwise the locally
measured metric latency, floored to 1 ms in both cases; and the
aggregation latency is the maximum of the eight reported latencies plus
the orchestrator's own elapsed time floored to 1 ms. -/
theorem latency_reporting_floored (ctx : Context) (o : Oracle) :
    ((ctx.latencies.getD emptyCtxLatencies).size_score_latency = none →
      (computeAllScores ctx o).size_score_latency =
        max 1 (timed_ms o.size_actual (timed_sim "size_score" o.size_r))) ∧
    (∀ v : ℤ, (ctx.latencies.getD emptyCtxLatencies).size_score_latency = some v →
      (computeAllScores ctx o).size_score_latency = max 1 v) ∧
    ((ctx.latencies.getD emptyCtxLatencies).license_latency = none →
      (computeAllScores ctx o).license_latency =
        max 1 (timed_ms o.license_actual (timed_sim "license_score" o.license_r))) ∧
    (∀ v : ℤ, (ctx.latencies.getD emptyCtxLatencies).license_latency = some v →
      (computeAllScores ctx o).license_latency = max 1 v) ∧
    ((ctx.latencies.getD emptyCtxLatencies).ramp_up_time_latency = none →
      (computeAllScores ctx o).ramp_up_time_latency =
        max 1 (timed_ms o.ramp_actual (timed_sim "rampup_score" o.ramp_r))) ∧
    (∀ v : ℤ, (ctx.latencies.getD emptyCtxLatencies).ramp_up_time_latency = some v →
      (computeAllScores ctx o).ramp_up_time_latency = max 1 v) ∧
    ((ctx.latencies.getD emptyCtxLatencies).bus_factor_latency = none →
      (computeAllScores ctx o).bus_factor_latency =
        max 1 (timed_ms o.bus_actual (timed_sim "bus_factor_score" o.bus_r))) ∧
    (∀ v : ℤ, (ctx.latencies.getD emptyCtxLatencies).bus_factor_latency = some v →
      (computeAllScores ctx o).bus_factor_latency = max 1 v) ∧
    ((ctx.latencies.getD emptyCtxLatencies).dataset_and_code_score_latency = none →
      (computeAllScores ctx o).dataset_and_code_score_latency =
        max 1 (timed_ms o.dac_actual (timed_sim "dataset_and_code_score" o.dac_r))) ∧
    (∀ v : ℤ,
      (ctx.latencies.getD emptyCtxLatencies).dataset_and_code_score_latency = some v →
      (computeAllScores ctx o).dataset_and_code_score_latency = max 1 v) ∧
    ((ctx.latencies.getD emptyCtxLatencies).dataset_quality_latency = none →
      (computeAllScores ctx o).dataset_quality_latency =
        max 1 (timed_ms o.dq_actual (timed_sim "dataset_quality_score" o.dq_r))) ∧
    (∀ v : ℤ, (ctx.latencies.getD emptyCtxLatencies).dataset_quality_latency = some v →
      (computeAllScores ctx o).dataset_quality_latency = max 1 v) ∧
    ((ctx.latencies.getD emptyCtxLatencies).code_quality_latency = none →
      (computeAllScores ctx o).code_quality_latency =
        max 1 (timed_ms o.cq_actual (timed_sim "code_quality_score" o.cq_r))) ∧
    (∀ v : ℤ, (ctx.latencies.getD emptyCtxLatencies).code_quality_latency = some v →
      (computeAllScores ctx o).code_quality_latency = max 1 v) ∧
    ((ctx.latencies.getD emptyCtxLatencies).performance_claims_latency = none →
      (computeAllScores ctx o).performance_claims_latency =
        max 1 (timed_ms o.pc_actual (timed_sim "perf_claims_score" o.pc_r))) ∧
    (∀ v : ℤ,
      (ctx.latencies.getD emptyCtxLatencies).performance_claims_latency = some v →
      (computeAllScores ctx o).performance_claims_latency = max 1 v) ∧
    (computeAllScores ctx o).net_score_latency =
      max (computeAllScores ctx o).size_score_latency
        (max (computeAllScores ctx o).license_latency
          (max (computeAllScores ctx o).ramp_up_time_latency
            (max (computeAllScores ctx o).bus_factor_latency
              (max (computeAllScores ctx o).dataset_and_code_score_latency
                (max (computeAllScores ctx o).dataset_quality_latency
                  (max (computeAllScores ctx o).code_quality_latency
                    (computeAllScores ctx o).performance_claims_latency)))))) +
        max 1 o.elapsed_ms :=
  ⟨fun h => max1_getD_none h, fun _ h => max1_getD_some h,
    fun h => max1_getD_none h, fun _ h => max1_getD_some h,
    fun h => max1_getD_none h, fun _ h => max1_getD_some h,
    fun h => max1_getD_none h, fun _ h => max1_getD_some h,
    fun h => max1_getD_none h, fun _ h => max1_getD_some h,
    fun h => max1_getD_none h, fun _ h => max1_getD_some h,
    fun h => max1_getD_none h, fun _ h => max1_getD_some h,
    fun h => max1_getD_none h, fun _ h => max1_getD_some h, rfl⟩

/-- A context whose `latencies` mapping carries every override. -/
def ctxAllOverrides : Context :=
  { emptyContext with
    latencies := some ⟨some 3, some 4, some 5, some 6, some 7, some 8, some 9, some 10⟩ }

/-- Claim C6 witness: concrete instances of `latency_reporting_floored`: all eight override
cases on a context carrying every override, and all eight fallback cases
on the empty context. -/
theorem latency_reporting_floored_check :
    (computeAllScores ctxAllOverrides zeroOracle).size_score_latency = max 1 3 ∧
    (computeAllScores ctxAllOverrides zeroOracle).license_latency = max 1 4 ∧
    (computeAllScores ctxAllOverrides zeroOracle).ramp_up_time_latency = max 1 5 ∧
    (computeAllScores ctxAllOverrides zeroOracle).bus_factor_latency = max 1 6 ∧
    (computeAllScores ctxAllOverrides zeroOracle).dataset_and_code_score_latency = max 1 7 ∧
    (computeAllScores ctxAllOverrides zeroOracle).dataset_quality_latency = max 1 8 ∧
    (computeAllScores ctxAllOverrides zeroOracle).code_quality_latency = max 1 9 ∧
    (computeAllScores ctxAllOverrides zeroOracle).performance_claims_latency = max 1 10 ∧
    (computeAllScores emptyContext zeroOracle).size_score_latency =
      max 1 (timed_ms 0 (timed_sim "size_score" 0)) ∧
    (computeAllScores emptyContext zeroOracle).license_latency =
      max 1 (timed_ms 0 (timed_sim "license_score" 0)) ∧
    (computeAllScores emptyContext zeroOracle).ramp_up_time_latency =
      max 1 (timed_ms 0 (timed_sim "rampup_score" 0)) ∧
    (computeAllScores emptyContext zeroOracle).bus_factor_latency =
      max 1 (timed_ms 0 (timed_sim "bus_factor_score" 0)) ∧
    (computeAllScores emptyContext zeroOracle).dataset_and_code_score_latency =
      max 1 (timed_ms 0 (timed_sim "dataset_and_code_score" 0)) ∧
    (computeAllScores emptyContext zeroOracle).dataset_quality_latency =
      max 1 (timed_ms 0 (timed_sim "dataset_quality_score" 0)) ∧
    (computeAllScores emptyContext zeroOracle).code_quality_latency =
      max 1 (timed_ms 0 (timed_sim "code_quality_score" 0)) ∧
    (computeAllScores emptyContext zeroOracle).performance_claims_latency =
      max 1 (timed_ms 0 (timed_sim "perf_claims_score" 0)) := by
  obtain ⟨-, s1, -, s2, -, s3, -, s4, -, s5, -, s6, -, s7, -, s8, -⟩ :=
    latency_reporting_floored ctxAllOverrides zeroOracle
  obtain ⟨n1, -, n2, -, n3, -, n4, -, n5, -, n6, -, n7, -, n8, -⟩ :=
    latency_reporting_floored emptyContext zeroOracle
  exact ⟨s1 3 rfl, s2 4 rfl, s3 5 rfl, s4 6 rfl, s5 7 rfl, s6 8 rfl, s7 9 rfl, s8 10 rfl,
    n1 rfl, n2 rfl, n3 rfl, n4 rfl, n5 rfl, n6 rfl, n7 rfl, n8 rfl⟩

/-- Modelled from the words of the claim under scrutiny: the aggregation
latency as the claim states it, namely the maximum reported per-dimension
latency plus the orchestrator's own elapsed time, with no floor applied to
the overhead term.  This definition follows the claim, not the source; it
exists only to be compared against the source behaviour. -/
def netScoreLatencyClaimed (ctx : Context) (o : Oracle) : ℤ :=
  maxLatency (mergedLatencies ctx o) + o.elapsed_ms

/-- Claim C6 counterexample: with zero orchestrator elapsed time the source reports the maximum
metric latency plus a floored overhead of 1 ms (here 35 + 1 = 36), not
plus the plain elapsed time (35 + 0 = 35) as the claim states. -/
theorem net_latency_overhead_not_exact :
    (computeAllScores emptyContext zeroOracle).net_score_latency = 36 ∧
    netScoreLatencyClaimed emptyContext zeroOracle = 35 ∧
    (computeAllScores emptyContext zeroOracle).net_score_latency ≠
      netScoreLatencyClaimed emptyContext zeroOracle := by
  refine ⟨?_, ?_, ?_⟩ <;> decide

end AcmeCLI
